import Mathlib

/-!
Verification of the Curve prompt-gateway filter.

This file gives a shallow embedding, in Lean 4, of the per-request
orchestration logic of the Curve HTTP filter (crate `curve`, file
`src/stream_context.rs`), of the startup embedding-catalog builder of the
prompt gateway (crate `prompt_gateway`, file `src/filter_context.rs`), and of
the shared data model (crate `public_types`).  Floating point scores are
modelled as rationals, JSON documents as structured values, and the host
runtime (proxy-wasm) as explicit state passing: each handler is a pure
function from its inputs to a description of the host effects it performs
(outbound dispatches, body writes, short-circuit responses, resume).
External collaborators that live outside the translated sources
(tokenizer, rate limiter, JSON codec) are passed in as function parameters.
-/

namespace Curve

/-! ## Data model (crate `public_types`, as used by `curve/src/stream_context.rs`) -/

/-- A JSON scalar value, modelling `serde_json::Value` as it appears in tool
call arguments. -/
inductive JsonValue where
  | str (s : String)
  | num (n : Int)
  | boolean (b : Bool)
deriving DecidableEq, Repr

/-- Debug formatting of a `serde_json::Value` (the Rust `{:?}` rendering),
used by the query-string construction in `function_resolver_handler`. -/
def JsonValue.debugFmt : JsonValue → String
  | .str s => "String(\x22" ++ s ++ "\x22)"
  | .num n => "Number(" ++ toString n ++ ")"
  | .boolean b => "Bool(" ++ toString b ++ ")"

/-- `open_ai::StreamOptions`. -/
structure StreamOptions where
  include_usage : Bool
deriving DecidableEq, Repr

/-- The `function` part of one tool call in a chat-completions response. -/
structure FunctionCallDetail where
  name : String
  arguments : List (String × JsonValue)
deriving DecidableEq, Repr

/-- One tool call in a chat-completions response message. -/
structure ToolCall where
  function : FunctionCallDetail
deriving DecidableEq, Repr

/-- `open_ai::Message`. -/
structure Message where
  role : String
  content : Option String
  model : Option String
  tool_calls : Option (List ToolCall)
deriving DecidableEq, Repr

/-- `configuration::Parameter` of a prompt target. -/
structure Parameter where
  name : String
  parameter_type : Option String
  description : String
  required : Option Bool
  enum_values : Option (List String)
  default : Option String
deriving DecidableEq, Repr

/-- HTTP method of a prompt-target endpoint.  Modelled from the spec: the
`configuration::Method` enum referenced by `curve/src/stream_context.rs` is
not among the provided sources; the spec describes an endpoint as cluster
name + path + method with `POST` as the interesting case. -/
inductive Method where
  | post
  | get
  | put
  | delete
deriving DecidableEq, Repr

/-- Wire rendering of a `Method`, as used for the `:method` pseudo-header. -/
def Method.render : Method → String
  | .post => "POST"
  | .get => "GET"
  | .put => "PUT"
  | .delete => "DELETE"

/-- `configuration::EndpointDetails` in the revision used by
`curve/src/stream_context.rs`: cluster name, optional path, optional method. -/
structure EndpointDetails where
  name : String
  path : Option String
  method : Option Method
deriving DecidableEq, Repr

/-- `configuration::PromptTarget`. -/
structure PromptTarget where
  name : String
  default : Option Bool
  description : String
  endpoint : Option EndpointDetails
  parameters : Option (List Parameter)
  system_prompt : Option String
  auto_llm_dispatch_on_response : Option Bool
deriving DecidableEq, Repr

/-- `configuration::Overrides`; scores are modelled as rationals. -/
structure Overrides where
  prompt_target_intent_matching_threshold : Option ℚ
deriving DecidableEq, Repr

/-- `open_ai::FunctionParameter` of an advertised tool. -/
structure FunctionParameter where
  parameter_type : String
  description : String
  required : Option Bool
  enum_values : Option (List String)
  default : Option String
deriving DecidableEq, Repr

/-- `open_ai::FunctionParameters`: the typed property map of a tool. -/
structure FunctionParameters where
  properties : List (String × FunctionParameter)
deriving DecidableEq, Repr

/-- `open_ai::FunctionDefinition`. -/
structure FunctionDefinition where
  name : String
  description : String
  parameters : FunctionParameters
deriving DecidableEq, Repr

/-- `open_ai::ChatCompletionTool` (the tool type is always `function`). -/
structure ChatCompletionTool where
  function : FunctionDefinition
deriving DecidableEq, Repr

/-- `open_ai::ChatCompletionsRequest`. -/
structure ChatCompletionsRequest where
  model : String
  messages : List Message
  tools : Option (List ChatCompletionTool)
  stream : Bool
  stream_options : Option StreamOptions
deriving DecidableEq, Repr

/-- `open_ai::Usage` of a chat-completions response. -/
structure Usage where
  completion_tokens : Nat
deriving DecidableEq, Repr

/-- `open_ai::Choice` of a chat-completions response. -/
structure Choice where
  finish_reason : String
  index : Nat
  message : Message
deriving DecidableEq, Repr

/-- `open_ai::ChatCompletionsResponse`. -/
structure ChatCompletionsResponse where
  usage : Usage
  choices : List Choice
  model : String
deriving DecidableEq, Repr

/-- `open_ai::Delta` of a streaming chunk. -/
structure Delta where
  content : Option String
deriving DecidableEq, Repr

/-- `open_ai::ChunkChoice` of a streaming chunk. -/
structure ChunkChoice where
  delta : Delta
  finish_reason : Option String
deriving DecidableEq, Repr

/-- `open_ai::ChatCompletionChunkResponse`. -/
structure ChatCompletionChunkResponse where
  model : String
  choices : List ChunkChoice
deriving DecidableEq, Repr

/-- `common_types::ZeroShotClassificationResponse`. -/
structure ZeroShotClassificationResponse where
  predicted_class : String
  predicted_class_score : ℚ
  scores : List (String × ℚ)
  model : String
deriving DecidableEq, Repr

/-! ## Constants (crate `curve`, module `consts`)

The `consts` module is not among the provided sources; the two values the
claims depend on are modelled from the spec. -/

/-- Modelled from the spec: the default intent-matching threshold
(`DEFAULT_PROMPT_TARGET_THRESHOLD`); scenario S1 of the spec fixes it at
`0.5`. -/
def DEFAULT_PROMPT_TARGET_THRESHOLD : ℚ := 1/2

/-- Modelled from the spec: the model name advertised to the function
resolver (`GPT_35_TURBO`). -/
def GPT_35_TURBO : String := "gpt-3.5-turbo"

/-! ## Intent resolution decision (`zero_shot_intent_detection_resp_handler`) -/

/-- Whether a character list starts with a given pattern list. -/
def listStartsWith : List Char → List Char → Bool
  | _, [] => true
  | [], _ :: _ => false
  | a :: s, b :: p => a = b && listStartsWith s p

/-- Rust `str::starts_with`, phrased on the character lists of the strings
so that it is kernel-computable. -/
def strStartsWith (s p : String) : Bool := listStartsWith s.data p.data

/-- The assistant-continuity test of `zero_shot_intent_detection_resp_handler`:
with at least two messages, look at the second-to-last message and test
whether its `model` field starts with the literal prefix `"Curve"`. -/
def curveAssistant (messages : List Message) : Bool :=
  if messages.length ≥ 2 then
    match messages[messages.length - 2]? with
    | some latest_assistant_message =>
      match latest_assistant_message.model with
      | some m => strStartsWith m "Curve"
      | none => false
    | none => false
  else false

/-- Threshold resolution of `zero_shot_intent_detection_resp_handler`:
the override when configured, the default otherwise. -/
def effectiveThreshold (overrides : Option Overrides) : ℚ :=
  match overrides with
  | some o =>
    match o.prompt_target_intent_matching_threshold with
    | some threshold => threshold
    | none => DEFAULT_PROMPT_TARGET_THRESHOLD
  | none => DEFAULT_PROMPT_TARGET_THRESHOLD

/-- The tool list advertised to the function resolver: one
`ChatCompletionTool` per configured prompt target, with the typed
parameters taken from the target configuration (default parameter type
`"str"`). -/
def promptTargetTools (promptTargets : List (String × PromptTarget)) :
    List ChatCompletionTool :=
  promptTargets.map fun p =>
    { function :=
      { name := p.2.name
        description := p.2.description
        parameters :=
        { properties := (p.2.parameters.getD []).map fun entity =>
            (entity.name,
             { parameter_type := entity.parameter_type.getD "str"
               description := entity.description
               required := entity.required
               enum_values := entity.enum_values
               default := entity.default }) } } }

/-- The function-resolver request built by
`zero_shot_intent_detection_resp_handler`: model `GPT_35_TURBO`, the original
messages, every prompt target advertised as a tool, no streaming. -/
def resolverRequest (messages : List Message)
    (promptTargets : List (String × PromptTarget)) : ChatCompletionsRequest :=
  { model := GPT_35_TURBO
    messages := messages
    tools := some (promptTargetTools promptTargets)
    stream := false
    stream_options := none }

/-- Outcome of the zero-shot reply handler. -/
inductive ZsDecision where
  | dispatchResolver (body : ChatCompletionsRequest)
  | resumeUpstream
  | fatal
deriving DecidableEq, Repr

/-- Decision logic of `zero_shot_intent_detection_resp_handler`: fuse the
zero-shot score with the cached description-embedding similarity of the
predicted class, compare against the effective threshold unless the
assistant-continuity override applies, and either resume the upstream
request or build the function-resolver request.  A missing entry for the
predicted class (in the similarity map or in the prompt-target catalog)
is an `unwrap` panic in the source, modelled as `fatal`. -/
def zeroShotIntentHandler (resp : ZeroShotClassificationResponse)
    (similarityScores : List (String × ℚ))
    (requestBody : ChatCompletionsRequest)
    (overrides : Option Overrides)
    (promptTargets : List (String × PromptTarget)) : ZsDecision :=
  match similarityScores.lookup resp.predicted_class with
  | none => .fatal
  | some pred_class_desc_emb_similarity =>
    let prompt_target_similarity_score :=
      resp.predicted_class_score * (7/10 : ℚ)
        + pred_class_desc_emb_similarity * (3/10 : ℚ)
    let assistant := curveAssistant requestBody.messages
    let threshold := effectiveThreshold overrides
    if prompt_target_similarity_score < threshold ∧ assistant = false then
      .resumeUpstream
    else
      match promptTargets.lookup resp.predicted_class with
      | none => .fatal
      | some _prompt_target =>
        .dispatchResolver (resolverRequest requestBody.messages promptTargets)

/-! ## Tool invocation (`function_resolver_handler`) -/

/-- Outcome of the function-resolver reply handler. -/
inductive FrOutcome where
  /-- `send_http_response(200, ..., resolver body)`: dialogue continuation. -/
  | respondInline (body : String)
  /-- `send_server_error(_, BAD_REQUEST)`. -/
  | badRequest (msg : String)
  /-- `dispatch_http_call(cluster, [:method, :path, ...], body)` to the tool
  endpoint, together with the cluster and path recorded in the call context. -/
  | callTool (cluster : String) (path : String) (method : Method)
      (body : Option String)
  /-- an `unwrap` panic in the source. -/
  | fatal
deriving DecidableEq, Repr

/-- Serialization of a tool-argument map to a JSON object string, modelling
`serde_json::to_string` on the argument map (an external collaborator). -/
def argumentsJson (args : List (String × JsonValue)) : String :=
  let field : String × JsonValue → String := fun p =>
    "\x22" ++ p.1 ++ "\x22:" ++
      (match p.2 with
       | .str s => "\x22" ++ s ++ "\x22"
       | .num n => toString n
       | .boolean b => toString b)
  "\x7b" ++ String.intercalate "," (args.map field) ++ "\x7d"

/-- `function_resolver_handler`, given the parsed resolver reply: if the first
choice carries no `tool_calls`, reply inline with the resolver body; if the
list is empty, answer 400; otherwise take the first tool call, look up the
prompt target it names, and build the endpoint call.  The source appends the
`k=v&...` query string (with debug-formatted values) to the path when the
method is `Post` and drops the body otherwise. -/
def functionResolverHandler (bodyStr : String)
    (resp : ChatCompletionsResponse)
    (promptTargets : List (String × PromptTarget)) : FrOutcome :=
  match resp.choices[0]? with
  | none => .fatal
  | some model_resp =>
    match model_resp.message.tool_calls with
    | none => .respondInline bodyStr
    | some tool_calls =>
      if tool_calls.isEmpty then
        .badRequest "No tool calls found in function resolver response"
      else
        match tool_calls[0]? with
        | none => .fatal
        | some first_call =>
          let tool_params := first_call.function.arguments
          let tools_call_name := first_call.function.name
          let tool_params_json_str := argumentsJson tool_params
          match promptTargets.lookup tools_call_name with
          | none => .fatal
          | some prompt_target =>
            match prompt_target.endpoint with
            | none => .fatal
            | some endpoint =>
              let path := endpoint.path.getD "/"
              let method := endpoint.method.getD .post
              if method = .post then
                let query_params :=
                  tool_params.map fun p => p.1 ++ "=" ++ p.2.debugFmt
                let path_args := String.intercalate "&" query_params
                .callTool endpoint.name (path ++ "?" ++ path_args) method
                  (some tool_params_json_str)
              else
                .callTool endpoint.name path method none

/-! ## Call context and tool-reply synthesis (`function_call_response_handler`) -/

/-- Constants `SYSTEM_ROLE` and `USER_ROLE` of the `consts` module.
Modelled from the spec: the synthesized messages carry `role=system` and
`role=user`. -/
def SYSTEM_ROLE : String := "system"

/-- See `SYSTEM_ROLE`. -/
def USER_ROLE : String := "user"

/-- The per-callout state `CallContext` of `curve/src/stream_context.rs`
(without the handler discriminant, which the embedding expresses by calling
the matching handler function directly). -/
structure CallContext where
  user_message : Option String
  prompt_target_name : Option String
  request_body : ChatCompletionsRequest
  similarity_scores : Option (List (String × ℚ))
  up_stream_cluster : Option String
  up_stream_cluster_path : Option String
deriving DecidableEq, Repr

/-- A rate-limit selector header. -/
structure RlHeader where
  key : String
  value : String
deriving DecidableEq, Repr

/-- Outcome of `function_call_response_handler`, together with the number of
`ratelimited_rq` counter increments it performs. -/
inductive FcOutcome where
  /-- `send_server_error(msg, BAD_REQUEST)` on a non-200 tool status. -/
  | httpError (status : Nat) (msg : String)
  /-- `send_server_error(..., TOO_MANY_REQUESTS)` plus `ratelimited_rq += 1`. -/
  | rateLimited (msg : String)
  /-- `set_http_request_body` with the synthesized request, then
  `resume_http_request`. -/
  | forward (body : ChatCompletionsRequest)
  /-- an `unwrap` panic in the source. -/
  | fatal
deriving DecidableEq, Repr

/-- The diagnostic built for a non-200 tool endpoint reply. -/
def toolErrorMsg (cluster path statusCode : String) : String :=
  "Error in function call response: cluster: " ++ cluster ++ ", path: "
    ++ path ++ ", status code: " ++ statusCode

/-- The message-list synthesis and request rebuild of
`function_call_response_handler`: the original messages, then (when the
prompt target configures one) the system prompt as a system message, then
the tool response body as a user message, then the original user message;
`model`, `stream` and `stream_options` are taken from the call context
request body and `tools` is cleared. -/
def synthesizedRequest (calloutContext : CallContext)
    (prompt_target : PromptTarget) (bodyStr user_message : String) :
    ChatCompletionsRequest :=
  let messages := calloutContext.request_body.messages
  let messages :=
    match prompt_target.system_prompt with
    | none => messages
    | some system_prompt =>
      messages ++ [{ role := SYSTEM_ROLE, content := some system_prompt
                     model := none, tool_calls := none }]
  let messages :=
    messages ++ [{ role := USER_ROLE, content := some bodyStr
                   model := none, tool_calls := none }]
  let messages :=
    messages ++ [{ role := USER_ROLE, content := some user_message
                   model := none, tool_calls := none }]
  { model := calloutContext.request_body.model
    messages := messages
    tools := none
    stream := calloutContext.request_body.stream
    stream_options := calloutContext.request_body.stream_options }

/-- The `:status` pseudo-header check at the head of
`function_call_response_handler`: `some outcome` when the handler
short-circuits (status present and different from `"200"`), `none` when it
proceeds to the synthesis. -/
def statusCheckOutcome (headers : List (String × String))
    (calloutContext : CallContext) : Option FcOutcome :=
  match headers.find? (fun p => p.1 == ":status") with
  | some http_status =>
    if http_status.2 ≠ "200" then
      match calloutContext.up_stream_cluster,
          calloutContext.up_stream_cluster_path with
      | some cluster, some path =>
        some (FcOutcome.httpError 400 (toolErrorMsg cluster path http_status.2))
      | _, _ => some .fatal
    else none
  | none => none

/-- `function_call_response_handler`: check the `:status` pseudo-header of the
tool reply, synthesize the new message list (original messages, optional
system prompt, tool response as a user message, original user message),
rebuild the chat-completions request preserving `model`, `stream` and
`stream_options` with `tools = None`, run the rate-limit gate, and forward.
`tokenCount` models `tokenizer::token_count` applied to the serialized body
and `checkLimit` models `ratelimit::...::check_limit`; both are external
collaborators.  A zero token count makes `NonZero::new(..).unwrap()` panic. -/
def functionCallResponseHandler (headers : List (String × String))
    (bodyStr : String) (calloutContext : CallContext)
    (promptTargets : List (String × PromptTarget))
    (ratelimitSelector : Option RlHeader)
    (tokenCount : String → ChatCompletionsRequest → Except Unit Nat)
    (checkLimit : String → RlHeader → Nat → Except String Unit) : FcOutcome :=
  match statusCheckOutcome headers calloutContext with
  | some outcome => outcome
  | none =>
    match calloutContext.prompt_target_name with
    | none => .fatal
    | some prompt_target_name =>
      match promptTargets.lookup prompt_target_name with
      | none => .fatal
      | some prompt_target =>
        match calloutContext.user_message with
        | none => .fatal
        | some user_message =>
          let chat_completions_request : ChatCompletionsRequest :=
            synthesizedRequest calloutContext prompt_target bodyStr
              user_message
          match ratelimitSelector with
          | none => .forward chat_completions_request
          | some selector =>
            match tokenCount chat_completions_request.model
                chat_completions_request with
            | .error _ => .forward chat_completions_request
            | .ok token_count =>
              if token_count = 0 then .fatal
              else
                match checkLimit chat_completions_request.model selector
                    token_count with
                | .ok _ => .forward chat_completions_request
                | .error err =>
                  .rateLimited ("Exceeded Ratelimit: " ++ err)

/-- Number of `ratelimited_rq` increments performed for a given outcome:
the source increments the counter exactly on the 429 branch. -/
def FcOutcome.ratelimitedIncrements : FcOutcome → Nat
  | .rateLimited _ => 1
  | _ => 0

/-! ## Header stage (`modify_auth_headers`, `on_http_request_headers`) -/

/-- Header lookup, modelling `get_http_request_header`. -/
def getHeader (hs : List (String × String)) (k : String) : Option String :=
  (hs.find? (fun p => p.1 == k)).map (·.2)

/-- Header mutation, modelling `set_http_request_header`: `none` removes
every pair with the key, `some v` replaces the value in place (or appends
when the key is absent). -/
def setHeader (hs : List (String × String)) (k : String) :
    Option String → List (String × String)
  | none => hs.filter (fun p => !(p.1 == k))
  | some v =>
    if hs.any (fun p => p.1 == k) then
      hs.map (fun p => if p.1 == k then (k, v) else p)
    else hs ++ [(k, v)]

/-- `modify_auth_headers`: read the api-key header of the selected provider,
synthesize `Authorization: Bearer <value>`, then scrub every known provider
api-key header.  `variants` models `LlmProviders::VARIANTS` mapped through
`api_key_header()` (the `llm_providers` module is not among the provided
sources; the spec describes it as the set of all known provider api-key
header names). -/
def modifyAuthHeaders (variants : List String) (apiKeyHeader : String)
    (hs : List (String × String)) : Except String (List (String × String)) :=
  match getHeader hs apiKeyHeader with
  | none => .error ("missing " ++ apiKeyHeader ++ " api key")
  | some llm_provider_api_key_value =>
    let hs := setHeader hs "Authorization"
      (some ("Bearer " ++ llm_provider_api_key_value))
    .ok (variants.foldl (fun acc provider => setHeader acc provider none) hs)

/-- Outcome of the auth portion of `on_http_request_headers`. -/
inductive HeadersOutcome where
  | proceed (hs : List (String × String))
  | badRequest (msg : String)
deriving DecidableEq, Repr

/-- The auth portion of `on_http_request_headers`: on a missing api key the
source sends a 400 via `send_server_error(error, Some(BAD_REQUEST))`. -/
def onHttpRequestHeadersAuth (variants : List String) (apiKeyHeader : String)
    (hs : List (String × String)) : HeadersOutcome :=
  match modifyAuthHeaders variants apiKeyHeader hs with
  | .ok hs2 => .proceed hs2
  | .error e => .badRequest e

/-! ## Request body stage (`on_http_request_body`) -/

/-- `proxy_wasm::types::Action`. -/
inductive Action where
  | Continue
  | Pause
deriving DecidableEq, Repr

/-- `configuration::GuardType`. -/
inductive GuardType where
  | jailbreak
deriving DecidableEq, Repr

/-- `configuration::OnExceptionDetails`. -/
structure OnExceptionDetails where
  forward_to_error_target : Option Bool
  error_handler : Option String
  message : Option String
deriving DecidableEq, Repr

/-- `configuration::GuardOptions`. -/
structure GuardOptions where
  on_exception : Option OnExceptionDetails
deriving DecidableEq, Repr

/-- `configuration::PromptGuards`. -/
structure PromptGuards where
  input_guards : List (GuardType × GuardOptions)
deriving DecidableEq, Repr

/-- The mutable per-request fields of `StreamContext` that the claims
depend on. -/
structure StreamState where
  streaming_response : Bool
  response_tokens : Nat
  chat_completions_request : Bool
deriving DecidableEq, Repr

/-- `StreamContext::new`: `streaming_response = false`,
`response_tokens = 0`, `chat_completions_request = false`. -/
def streamContextNew : StreamState :=
  { streaming_response := false
    response_tokens := 0
    chat_completions_request := false }

/-- The outbound dispatch performed at the end of the body stage. -/
inductive BodyDispatch where
  /-- `POST /guard` to the model server. -/
  | guardCall (ctx : CallContext)
  /-- `get_embeddings`: `POST /embeddings` to the model server. -/
  | embeddingsCall (ctx : CallContext)
deriving DecidableEq, Repr

/-- Result of `on_http_request_body`: the updated stream state, the host
action, every `set_http_request_body` write performed (the source performs
none in this handler), the outbound dispatch if any, and a short-circuit
response if any. -/
structure BodyStageOut where
  st : StreamState
  action : Action
  bodyWrites : List ChatCompletionsRequest
  dispatched : Option BodyDispatch
  response : Option (Nat × String)
deriving DecidableEq, Repr

/-- `on_http_request_body`: buffer until end-of-stream, decode, overwrite
`model` with the selected provider model, force
`stream_options.include_usage` for streaming requests, extract the user
message (the content of the last message), and dispatch either the
jailbreak guard call (when a `Jailbreak` input guard is configured) or the
embeddings call.  `parsedBody` is the decode result of the buffered bytes
(`none` models a deserialization failure). -/
def onHttpRequestBody (st : StreamState) (endOfStream : Bool) (bodySize : Nat)
    (parsedBody : Option ChatCompletionsRequest) (providerModel : String)
    (promptGuards : Option PromptGuards) : BodyStageOut :=
  if endOfStream = false then
    { st := st, action := .Pause, bodyWrites := [], dispatched := none
      response := none }
  else if bodySize = 0 then
    { st := st, action := .Continue, bodyWrites := [], dispatched := none
      response := none }
  else
    match parsedBody with
    | none =>
      { st := st, action := .Pause, bodyWrites := [], dispatched := none
        response := some (400, "Failed to deserialize") }
    | some deserialized =>
      let deserialized := { deserialized with model := providerModel }
      let st := { st with streaming_response := deserialized.stream }
      let deserialized :=
        if deserialized.stream ∧ deserialized.stream_options = none then
          { deserialized with stream_options := some { include_usage := true } }
        else deserialized
      match deserialized.messages.getLast?.bind (fun m => m.content) with
      | none =>
        { st := st, action := .Continue, bodyWrites := [], dispatched := none
          response := none }
      | some user_message =>
        let callout_context : CallContext :=
          { user_message := some user_message
            prompt_target_name := none
            request_body := deserialized
            similarity_scores := none
            up_stream_cluster := none
            up_stream_cluster_path := none }
        match promptGuards with
        | none =>
          { st := st, action := .Pause, bodyWrites := []
            dispatched := some (.embeddingsCall callout_context)
            response := none }
        | some prompt_guards =>
          if prompt_guards.input_guards.any
              (fun g => g.1 = GuardType.jailbreak) = false then
            { st := st, action := .Pause, bodyWrites := []
              dispatched := some (.embeddingsCall callout_context)
              response := none }
          else
            { st := st, action := .Pause, bodyWrites := []
              dispatched := some (.guardCall callout_context)
              response := none }

/-- The body the host forwards upstream when the filter resumes: the
buffered inbound body unless some `set_http_request_body` overwrote it. -/
def upstreamBodyAfterResume (inbound : ChatCompletionsRequest)
    (writes : List ChatCompletionsRequest) : ChatCompletionsRequest :=
  writes.getLast?.getD inbound

/-- The full passthrough run of one request: body stage on the inbound
request, then (embedding and zero-shot replies received, with the cached
similarity scores `sims`) the zero-shot decision; when the decision is to
resume, the upstream body is the inbound body combined with every body
write performed on the path (the source performs none).  Returns `none`
when the run does not end in a passthrough resume. -/
def passthroughForwardedBody (inbound : ChatCompletionsRequest)
    (providerModel : String) (resp : ZeroShotClassificationResponse)
    (sims : List (String × ℚ)) (overrides : Option Overrides)
    (promptTargets : List (String × PromptTarget)) :
    Option ChatCompletionsRequest :=
  let out := onHttpRequestBody streamContextNew true 1 (some inbound)
    providerModel none
  match out.dispatched with
  | some (.embeddingsCall ctx) =>
    match zeroShotIntentHandler resp sims ctx.request_body overrides
        promptTargets with
    | .resumeUpstream => some (upstreamBodyAfterResume inbound out.bodyWrites)
    | _ => none
  | _ => none

/-- Stated from the claim, for comparison with the source behaviour: the
inbound body with the `model` overwrite and the
`stream_options.include_usage` normalization applied. -/
def claimNormalizedUpstreamBody (inbound : ChatCompletionsRequest)
    (providerModel : String) : ChatCompletionsRequest :=
  let b := { inbound with model := providerModel }
  if b.stream ∧ b.stream_options = none then
    { b with stream_options := some { include_usage := true } }
  else b

/-! ## Response body stage (`on_http_response_body`) -/

/-- Split a character list at the first occurrence of a pattern, returning
the parts before and after it; `none` when the pattern does not occur.
Mirrors Rust `str::split_once`. -/
def splitOnceList (sep : List Char) : List Char → Option (List Char × List Char)
  | [] => none
  | c :: rest =>
    if listStartsWith (c :: rest) sep then some ([], (c :: rest).drop sep.length)
    else
      match splitOnceList sep rest with
      | some (before, after) => some (c :: before, after)
      | none => none

/-- The part of the buffered response body after the first `"data: "`
marker, modelling `str::split_once`. -/
def splitOnceAfter (sep s : String) : Option String :=
  (splitOnceList sep.data s.data).map fun p => ⟨p.2⟩

/-- `on_http_response_body`: pass non-chat-completions traffic through
untouched; in streaming mode take the part after `"data: "`, parse it as a
chunk and add `tokenize(model, delta.content)` of the first choice to the
running counter; otherwise parse the full `ChatCompletionsResponse` and add
`usage.completion_tokens`.  `parseChunk` and `parseResponse` model the JSON
codec, `tokenCount` the tokenizer (external collaborators).  `none` models
the `unwrap` panic on an empty `choices` list. -/
def onHttpResponseBody (st : StreamState) (endOfStream : Bool)
    (bodyStr : String)
    (parseChunk : String → Option ChatCompletionChunkResponse)
    (parseResponse : String → Option ChatCompletionsResponse)
    (tokenCount : String → String → Except Unit Nat) :
    Option (StreamState × Action) :=
  if st.chat_completions_request = false then some (st, .Continue)
  else if endOfStream = false ∧ st.streaming_response = false then
    some (st, .Pause)
  else if st.streaming_response then
    match splitOnceAfter "data: " bodyStr with
    | none => some (st, .Pause)
    | some chat_completions_data =>
      match parseChunk chat_completions_data with
      | none => some (st, .Continue)
      | some chunk =>
        match chunk.choices[0]? with
        | none => none
        | some first_choice =>
          match first_choice.delta.content with
          | none => some (st, .Continue)
          | some content =>
            let token_count :=
              match tokenCount chunk.model content with
              | .ok n => n
              | .error _ => 0
            some ({ st with response_tokens := st.response_tokens + token_count },
              .Continue)
  else
    match parseResponse bodyStr with
    | none => some (st, .Pause)
    | some chat_completions_response =>
      some ({ st with response_tokens :=
          st.response_tokens + chat_completions_response.usage.completion_tokens },
        .Continue)

/-! ## Startup catalog builder (crate `prompt_gateway`, `filter_context.rs`) -/

/-- `common_types::EmbeddingType`. -/
inductive EmbeddingType where
  | name
  | description
deriving DecidableEq, Repr

/-- `EmbeddingTypeMap`. -/
abbrev EmbeddingTypeMap := List (EmbeddingType × List ℚ)

/-- `EmbeddingsStore`. -/
abbrev EmbeddingsStore := List (String × EmbeddingTypeMap)

/-- The fields of `prompt_gateway::FilterContext` the catalog lifecycle
touches. -/
structure FilterContextState where
  promptTargets : List (String × PromptTarget)
  embeddings_store : Option EmbeddingsStore
  temp_embeddings_store : EmbeddingsStore
deriving DecidableEq, Repr

/-- `FilterContext::new` followed by `on_configure` with the given prompt
targets: `on_configure` fills `prompt_targets` and leaves
`embeddings_store` at its initial value `Some(HashMap::new())` and
`temp_embeddings_store` empty. -/
def filterContextAfterConfigure
    (promptTargets : List (String × PromptTarget)) : FilterContextState :=
  { promptTargets := promptTargets
    embeddings_store := some []
    temp_embeddings_store := [] }

/-- `create_http_context`: refuse (return `none`) exactly when
`embeddings_store` is `None`; otherwise hand the store to the new stream
context. -/
def createHttpContext (st : FilterContextState) : Option EmbeddingsStore :=
  match st.embeddings_store with
  | none => none
  | some store => some store

/-- Publication step at the end of `embedding_response_handler`: when the
staging store holds as many entries as there are prompt targets, it is
moved (`std::mem::take`) into the live `embeddings_store`. -/
def publishIfComplete (st : FilterContextState) : FilterContextState :=
  if st.promptTargets.length = st.temp_embeddings_store.length then
    { st with
        embeddings_store := some st.temp_embeddings_store
        temp_embeddings_store := [] }
  else st

/-- `embedding_response_handler` of the prompt gateway: look up the prompt
target (unknown name is a panic, modelled as `none`), skip empty bodies,
record the embedding under `(name, embedding type)` in the staging store
(a duplicate `(name, type)` pair already staged is a panic), then publish
when complete.  `rawBody` is the parsed `data[0].embedding` of a non-empty
body, `none` standing for an empty response body. -/
def embeddingResponseHandler (st : FilterContextState)
    (prompt_target_name : String) (embedding_type : EmbeddingType)
    (rawBody : Option (List ℚ)) : Option FilterContextState :=
  match st.promptTargets.lookup prompt_target_name with
  | none => none
  | some _prompt_target =>
    match rawBody with
    | none => some st
    | some embeddings =>
      match st.temp_embeddings_store.lookup prompt_target_name with
      | some inner =>
        match inner.lookup embedding_type with
        | some _ => none
        | none =>
          let temp := st.temp_embeddings_store.map fun p =>
            if p.1 = prompt_target_name then
              (p.1, p.2 ++ [(embedding_type, embeddings)])
            else p
          some (publishIfComplete { st with temp_embeddings_store := temp })
      | none =>
        let temp := st.temp_embeddings_store
          ++ [(prompt_target_name, [(embedding_type, embeddings)])]
        some (publishIfComplete { st with temp_embeddings_store := temp })

/-! ## Statement helpers and concrete evaluation fixtures -/

/-- The fragment occurs inside the message (substring containment, phrased
on character lists). -/
def containsFragment (msg fragment : String) : Prop :=
  ∃ before after, msg.data = before ++ fragment.data ++ after

/-- Fixture: a minimal prompt target without an endpoint. -/
def sampleTarget : PromptTarget :=
  { name := "weather"
    default := none
    description := "weather lookup"
    endpoint := none
    parameters := none
    system_prompt := none
    auto_llm_dispatch_on_response := none }

/-- Fixture: the weather target with a GET endpoint. -/
def sampleGetTarget : PromptTarget :=
  { sampleTarget with
      endpoint := some { name := "weathercluster", path := some "/wx"
                         method := some Method.get } }

/-- Fixture: the weather target with a POST endpooint. -/
def samplePostTarget : PromptTarget :=
  { sampleTarget with
      endpoint := some { name := "weathercluster", path := some "/wx"
                         method := some Method.post } }

/-- Fixture: a plain user message. -/
def sampleUserMsg : Message :=
  { role := "user", content := some "what is the weather", model := none
    tool_calls := none }

/-- Fixture: a resolver reply whose first choice carries one tool call named
`"weather"` with the given arguments. -/
def sampleResolverReply (args : List (String × JsonValue)) :
    ChatCompletionsResponse :=
  { usage := { completion_tokens := 0 }
    choices := [{ finish_reason := "stop", index := 0
                  message := { role := "assistant", content := some "tool call"
                               model := none
                               tool_calls := some [{ function :=
                                 { name := "weather", arguments := args } }] } }]
    model := "fc-model" }

/-- Fixture: the weather target with a configured system prompt. -/
def sampleSysTarget : PromptTarget :=
  { sampleTarget with system_prompt := some "You are a weather assistant" }

/-- Fixture: a call context as it stands when the tool endpoint reply
arrives. -/
def c4Ctx : CallContext :=
  { user_message := some "what is the weather"
    prompt_target_name := some "weather"
    request_body := { model := "gpt-4o", messages := [], tools := none
                      stream := true
                      stream_options := some { include_usage := true } }
    similarity_scores := none
    up_stream_cluster := some "weathercluster"
    up_stream_cluster_path := some "/wx" }

/-- Fixture: a zero-shot reply with a zero score for the weather class. -/
def lowScoreResp : ZeroShotClassificationResponse :=
  { predicted_class := "weather"
    predicted_class_score := 0
    scores := [("weather", 0)]
    model := "intent-model" }

/-- Fixture: a streaming inbound request without stream options. -/
def c5Req : ChatCompletionsRequest :=
  { model := "gpt-4o", messages := [sampleUserMsg], tools := none
    stream := true, stream_options := none }

/-- Fixture: a second streaming inbound request without stream options. -/
def c6Req : ChatCompletionsRequest :=
  { model := "gpt-4", messages := [sampleUserMsg], tools := none
    stream := true, stream_options := none }

/-- Fixture: a streaming chunk carrying content `"abcd"`. -/
def c9Chunk : ChatCompletionChunkResponse :=
  { model := "M"
    choices := [{ delta := { content := some "abcd" }, finish_reason := none }] }

/-- Fixture: a streaming chunk carrying content `"ef"`. -/
def c9Chunk2 : ChatCompletionChunkResponse :=
  { model := "M"
    choices := [{ delta := { content := some "ef" }, finish_reason := none }] }

/-- Fixture: the JSON codec for the two chunk payloads. -/
def c9Parse : String → Option ChatCompletionChunkResponse := fun s =>
  if s = "CHUNK" then some c9Chunk
  else if s = "CHUNK2" then some c9Chunk2
  else none

/-- Fixture: a tokenizer counting one token per character. -/
def c9TokenCount : String → String → Except Unit Nat :=
  fun _ content => Except.ok content.length

/-! ## Theorems -/

/-- Claim C1: for every request that has received both an embedding reply and
a zero-shot reply, the filter dispatches a function-resolver call if and only
if `0.7 * predicted_class_score + 0.3 * (cached description-embedding cosine
similarity of the predicted class)` is at least the configured threshold
(override, or the default when absent) or the second-to-last message of the
request body has a `model` field starting with the literal prefix `"Curve"`;
in all other cases it resumes the upstream request. -/
theorem C1_intent_fusion_decision
    (resp : ZeroShotClassificationResponse) (sims : List (String × ℚ))
    (req : ChatCompletionsRequest) (ov : Option Overrides)
    (pts : List (String × PromptTarget)) (d : ℚ) (pt : PromptTarget)
    (hd : sims.lookup resp.predicted_class = some d)
    (hpt : pts.lookup resp.predicted_class = some pt) :
    ((∃ body, zeroShotIntentHandler resp sims req ov pts
        = ZsDecision.dispatchResolver body) ↔
      (effectiveThreshold ov ≤
          (7/10 : ℚ) * resp.predicted_class_score + (3/10 : ℚ) * d
        ∨ curveAssistant req.messages = true)) ∧
    (¬ (effectiveThreshold ov ≤
          (7/10 : ℚ) * resp.predicted_class_score + (3/10 : ℚ) * d
        ∨ curveAssistant req.messages = true) →
      zeroShotIntentHandler resp sims req ov pts = ZsDecision.resumeUpstream) := by
  have harith : resp.predicted_class_score * (7/10 : ℚ) + d * (3/10 : ℚ)
      = (7/10 : ℚ) * resp.predicted_class_score + (3/10 : ℚ) * d := by ring
  by_cases hc : resp.predicted_class_score * (7/10 : ℚ) + d * (3/10 : ℚ)
      < effectiveThreshold ov ∧ curveAssistant req.messages = false
  · have hkey : zeroShotIntentHandler resp sims req ov pts
        = ZsDecision.resumeUpstream := by
      simp only [zeroShotIntentHandler, hd, if_pos hc]
    refine ⟨?_, fun _ => hkey⟩
    constructor
    · intro ⟨body, hb⟩
      rw [hkey] at hb
      exact absurd hb (by simp)
    · intro hcond
      exfalso
      rcases hc with ⟨hlt, hfalse⟩
      rcases hcond with hle | htrue
      · rw [harith] at hlt
        exact absurd hle (not_le.mpr hlt)
      · rw [htrue] at hfalse
        exact Bool.noConfusion hfalse
  · have hkey : zeroShotIntentHandler resp sims req ov pts
        = ZsDecision.dispatchResolver (resolverRequest req.messages pts) := by
      simp only [zeroShotIntentHandler, hd, if_neg hc, hpt]
    refine ⟨?_, ?_⟩
    · constructor
      · intro _
        rcases not_and_or.mp hc with hnl | hnb
        · left
          rw [← harith]
          exact not_lt.mp hnl
        · right
          cases hb : curveAssistant req.messages with
          | false => exact absurd hb hnb
          | true => rfl
      · intro _
        exact ⟨_, hkey⟩
    · intro hncond
      exfalso
      apply hc
      constructor
      · rw [harith]
        exact not_le.mp (fun h => hncond (Or.inl h))
      · cases hassist : curveAssistant req.messages with
        | false => rfl
        | true => exact absurd (Or.inr hassist) hncond

/-- Witness for C1: a concrete reply pair whose fused score `0.87` clears the
default threshold `0.5`, so the resolver call is dispatched. -/
theorem C1_intent_fusion_decision_witness :
    ∃ body,
      zeroShotIntentHandler
        { predicted_class := "weather", predicted_class_score := 9/10
          scores := [("weather", 9/10)], model := "intent-model" }
        [("weather", (8/10 : ℚ))]
        { model := "gpt-4o"
          messages := [{ role := "user", content := some "what is the weather"
                         model := none, tool_calls := none }]
          tools := none, stream := false, stream_options := none }
        none
        [("weather",
          { name := "weather", default := none, description := "weather lookup"
            endpoint := none, parameters := none, system_prompt := none
            auto_llm_dispatch_on_response := none })]
        = ZsDecision.dispatchResolver body :=
  ((C1_intent_fusion_decision _ _ _ none _ (8/10)
      { name := "weather", default := none, description := "weather lookup"
        endpoint := none, parameters := none, system_prompt := none
        auto_llm_dispatch_on_response := none }
      (by rfl) (by rfl)).1).mpr
    (Or.inl (by norm_num [effectiveThreshold, DEFAULT_PROMPT_TARGET_THRESHOLD]))

/-- Claim C2, evaluated on the source behaviour: with one configured prompt
target and an empty staging store, `create_http_context` already hands out a
request context (the store field is initialized `Some(empty)`, so the
`None`-refusal branch never fires); one description embedding publishes the
staged store as the live catalog; and a further description embedding for
the already-filled target after publication is not fatal (the staging store
was emptied by the publication, so the duplicate check cannot fire). -/
theorem C2_catalog_admission_eval :
    createHttpContext (filterContextAfterConfigure [("weather", sampleTarget)])
      = some [] ∧
    (filterContextAfterConfigure
        [("weather", sampleTarget)]).temp_embeddings_store.length = 0 ∧
    embeddingResponseHandler
        (filterContextAfterConfigure [("weather", sampleTarget)])
        "weather" EmbeddingType.description (some [1])
      = some
        { promptTargets := [("weather", sampleTarget)]
          embeddings_store := some [("weather", [(EmbeddingType.description, [1])])]
          temp_embeddings_store := [] } ∧
    (embeddingResponseHandler
        { promptTargets := [("weather", sampleTarget)]
          embeddings_store := some [("weather", [(EmbeddingType.description, [1])])]
          temp_embeddings_store := [] }
        "weather" EmbeddingType.description (some [1])).isSome = true :=
  ⟨rfl, rfl, rfl, rfl⟩

/-- Claim C3, evaluated on the source behaviour: for a GET endpoint the tool
arguments are dropped entirely (no body, no query string), and for a POST
endpoint the arguments are sent as a JSON body while the query string is
also appended to the path; the source guards the query-string construction
with `method == Post` instead of `method != Post`. -/
theorem C3_tool_call_construction_eval :
    functionResolverHandler "raw"
        (sampleResolverReply [("city", JsonValue.str "Paris")])
        [("weather", sampleGetTarget)]
      = FrOutcome.callTool "weathercluster" "/wx" Method.get none ∧
    functionResolverHandler "raw"
        (sampleResolverReply [("city", JsonValue.str "Paris")])
        [("weather", samplePostTarget)]
      = FrOutcome.callTool "weathercluster" "/wx?city=String(\x22Paris\x22)"
          Method.post (some "\x7b\x22city\x22:\x22Paris\x22\x7d") :=
  ⟨rfl, rfl⟩

/-- The status check never produces the forward outcome: when it fires, it
fires with a 400 diagnostic or a panic. -/
theorem statusCheckOutcome_ne_forward (headers : List (String × String))
    (ctx : CallContext) (o : FcOutcome) (b : ChatCompletionsRequest)
    (h : statusCheckOutcome headers ctx = some o) :
    o ≠ FcOutcome.forward b := by
  unfold statusCheckOutcome at h
  split at h
  · split at h
    · split at h
      · injection h with h1
        rw [← h1]
        intro hc
        exact FcOutcome.noConfusion hc
      · injection h with h1
        rw [← h1]
        intro hc
        exact FcOutcome.noConfusion hc
    · exact Option.noConfusion h
  · exact Option.noConfusion h

/-- Claim C4: after a successful (2xx) tool-endpoint reply, the body written
upstream has a messages sequence equal to the original messages, then (only
when the matched prompt target configures a system prompt) a system message
with that prompt, then a user message holding the tool response body, then a
user message holding the original user message; the original `stream` and
`stream_options` values are preserved and `tools` is null. -/
theorem C4_synthesized_upstream_body
    (headers : List (String × String)) (bodyStr : String)
    (ctx : CallContext) (pts : List (String × PromptTarget))
    (sel : Option RlHeader)
    (tokenCount : String → ChatCompletionsRequest → Except Unit Nat)
    (checkLimit : String → RlHeader → Nat → Except String Unit)
    (name : String) (pt : PromptTarget) (um : String)
    (hname : ctx.prompt_target_name = some name)
    (hpt : pts.lookup name = some pt)
    (hum : ctx.user_message = some um)
    (b : ChatCompletionsRequest)
    (hfwd : functionCallResponseHandler headers bodyStr ctx pts sel
        tokenCount checkLimit = FcOutcome.forward b) :
    b.messages = ctx.request_body.messages
        ++ (match pt.system_prompt with
            | some sp => [{ role := SYSTEM_ROLE, content := some sp
                            model := none, tool_calls := none }]
            | none => [])
        ++ [{ role := USER_ROLE, content := some bodyStr
              model := none, tool_calls := none }]
        ++ [{ role := USER_ROLE, content := some um
              model := none, tool_calls := none }]
      ∧ b.model = ctx.request_body.model
      ∧ b.stream = ctx.request_body.stream
      ∧ b.stream_options = ctx.request_body.stream_options
      ∧ b.tools = none := by
  have hprops : (synthesizedRequest ctx pt bodyStr um).messages
        = ctx.request_body.messages
          ++ (match pt.system_prompt with
              | some sp => [{ role := SYSTEM_ROLE, content := some sp
                              model := none, tool_calls := none }]
              | none => [])
          ++ [{ role := USER_ROLE, content := some bodyStr
                model := none, tool_calls := none }]
          ++ [{ role := USER_ROLE, content := some um
                model := none, tool_calls := none }]
      ∧ (synthesizedRequest ctx pt bodyStr um).model = ctx.request_body.model
      ∧ (synthesizedRequest ctx pt bodyStr um).stream = ctx.request_body.stream
      ∧ (synthesizedRequest ctx pt bodyStr um).stream_options
          = ctx.request_body.stream_options
      ∧ (synthesizedRequest ctx pt bodyStr um).tools = none := by
    cases hsp : pt.system_prompt with
    | none => simp [synthesizedRequest, hsp]
    | some sp => simp [synthesizedRequest, hsp]
  suffices hb : b = synthesizedRequest ctx pt bodyStr um by
    rw [hb]
    exact hprops
  unfold functionCallResponseHandler at hfwd
  rw [hname, hum] at hfwd
  dsimp only [] at hfwd
  rw [hpt] at hfwd
  dsimp only [] at hfwd
  cases hsc : statusCheckOutcome headers ctx with
  | some o =>
    rw [hsc] at hfwd
    dsimp only [] at hfwd
    exact absurd hfwd (statusCheckOutcome_ne_forward headers ctx o b hsc)
  | none =>
    rw [hsc] at hfwd
    dsimp only [] at hfwd
    split at hfwd
    · injection hfwd with hb
      exact hb.symm
    · split at hfwd
      · injection hfwd with hb
        exact hb.symm
      · split at hfwd
        · exact FcOutcome.noConfusion hfwd
        · split at hfwd
          · injection hfwd with hb
            exact hb.symm
          · exact FcOutcome.noConfusion hfwd

/-- Witness for C4: a concrete 200 tool reply with a system prompt
configured; the handler forwards the synthesized request and the synthesized
request has the claimed shape. -/
theorem C4_synthesized_upstream_body_witness :
    (c4Ctx.prompt_target_name = some "weather"
      ∧ [("weather", sampleSysTarget)].lookup "weather" = some sampleSysTarget
      ∧ c4Ctx.user_message = some "what is the weather")
    ∧ ((synthesizedRequest c4Ctx sampleSysTarget "sunny"
          "what is the weather").messages
        = c4Ctx.request_body.messages
          ++ (match sampleSysTarget.system_prompt with
              | some sp => [{ role := SYSTEM_ROLE, content := some sp
                              model := none, tool_calls := none }]
              | none => [])
          ++ [{ role := USER_ROLE, content := some "sunny"
                model := none, tool_calls := none }]
          ++ [{ role := USER_ROLE, content := some "what is the weather"
                model := none, tool_calls := none }]
      ∧ (synthesizedRequest c4Ctx sampleSysTarget "sunny"
          "what is the weather").model = c4Ctx.request_body.model
      ∧ (synthesizedRequest c4Ctx sampleSysTarget "sunny"
          "what is the weather").stream = c4Ctx.request_body.stream
      ∧ (synthesizedRequest c4Ctx sampleSysTarget "sunny"
          "what is the weather").stream_options
          = c4Ctx.request_body.stream_options
      ∧ (synthesizedRequest c4Ctx sampleSysTarget "sunny"
          "what is the weather").tools = none) :=
  ⟨⟨rfl, rfl, rfl⟩,
    C4_synthesized_upstream_body [(":status", "200")] "sunny" c4Ctx
      [("weather", sampleSysTarget)] none (fun _ _ => Except.ok 5)
      (fun _ _ _ => Except.ok ()) "weather" sampleSysTarget
      "what is the weather" rfl rfl rfl
      (synthesizedRequest c4Ctx sampleSysTarget "sunny" "what is the weather")
      rfl⟩

/-- With a zero fused score and no assistant continuity, the zero-shot
decision is to resume the upstream request. -/
theorem lowScore_resume (body : ChatCompletionsRequest)
    (h : curveAssistant body.messages = false) :
    zeroShotIntentHandler lowScoreResp [("weather", 0)] body none
      [("weather", sampleTarget)] = ZsDecision.resumeUpstream := by
  unfold zeroShotIntentHandler
  rw [show List.lookup lowScoreResp.predicted_class [("weather", (0:ℚ))]
      = some 0 from rfl]
  dsimp only []
  rw [if_pos]
  exact ⟨by norm_num [lowScoreResp, effectiveThreshold,
    DEFAULT_PROMPT_TARGET_THRESHOLD], h⟩

/-- Claim C5, evaluated on the source behaviour: on the below-threshold
passthrough path the filter never calls `set_http_request_body`, so the body
forwarded upstream is the inbound body byte for byte; in particular the
`model` overwrite and the `stream_options.include_usage` normalization,
performed only on the local deserialized copy, are lost. -/
theorem C5_passthrough_forwards_inbound_unchanged :
    passthroughForwardedBody c5Req "mistral-large" lowScoreResp
        [("weather", 0)] none [("weather", sampleTarget)] = some c5Req
      ∧ c5Req ≠ claimNormalizedUpstreamBody c5Req "mistral-large" := by
  constructor
  · unfold passthroughForwardedBody
    rw [show onHttpRequestBody streamContextNew true 1 (some c5Req)
        "mistral-large" none
      = { st := { streaming_response := true, response_tokens := 0
                  chat_completions_request := false }
          action := Action.Pause
          bodyWrites := []
          dispatched := some (BodyDispatch.embeddingsCall
            { user_message := some "what is the weather"
              prompt_target_name := none
              request_body := { model := "mistral-large"
                                messages := [sampleUserMsg], tools := none
                                stream := true
                                stream_options := some { include_usage := true } }
              similarity_scores := none
              up_stream_cluster := none
              up_stream_cluster_path := none })
          response := none } from rfl]
    dsimp only []
    rw [lowScore_resume
      { model := "mistral-large", messages := [sampleUserMsg], tools := none
        stream := true, stream_options := some { include_usage := true } }
      rfl]
    rfl
  · decide

/-- Claim C6, evaluated on the source behaviour: the passthrough path
forwards a body whose `model` field is the inbound one, not the selected
provider model, and whose `stream_options` stays absent although
`stream = true`. -/
theorem C6_upstream_model_not_overwritten :
    passthroughForwardedBody c6Req "openai-gpt4o" lowScoreResp
        [("weather", 0)] none [("weather", sampleTarget)] = some c6Req
      ∧ c6Req.model = "gpt-4"
      ∧ "gpt-4" ≠ "openai-gpt4o"
      ∧ c6Req.stream = true
      ∧ c6Req.stream_options = none := by
  refine ⟨?_, rfl, by decide, rfl, rfl⟩
  unfold passthroughForwardedBody
  rw [show onHttpRequestBody streamContextNew true 1 (some c6Req)
      "openai-gpt4o" none
    = { st := { streaming_response := true, response_tokens := 0
                chat_completions_request := false }
        action := Action.Pause
        bodyWrites := []
        dispatched := some (BodyDispatch.embeddingsCall
          { user_message := some "what is the weather"
            prompt_target_name := none
            request_body := { model := "openai-gpt4o"
                              messages := [sampleUserMsg], tools := none
                              stream := true
                              stream_options := some { include_usage := true } }
            similarity_scores := none
            up_stream_cluster := none
            up_stream_cluster_path := none })
        response := none } from rfl]
  dsimp only []
  rw [lowScore_resume
    { model := "openai-gpt4o", messages := [sampleUserMsg], tools := none
      stream := true, stream_options := some { include_usage := true } }
    rfl]
  rfl

/-- Looking a key up after removing it yields nothing. -/
theorem getHeader_setHeader_none_self (hs : List (String × String))
    (k : String) : getHeader (setHeader hs k none) k = none := by
  simp only [getHeader, setHeader, Option.map_eq_none']
  rw [List.find?_eq_none]
  intro x hx
  have hmem := List.mem_filter.mp hx
  simpa using hmem.2

/-- Removing one key leaves the others unchanged. -/
theorem getHeader_setHeader_none_other (hs : List (String × String))
    (k k2 : String) (hne : k2 ≠ k) :
    getHeader (setHeader hs k none) k2 = getHeader hs k2 := by
  simp only [getHeader, setHeader]
  induction hs with
  | nil => rfl
  | cons a t ih =>
    by_cases ha : (a.1 == k) = true
    · have ha2 : (a.1 == k2) = false := by
        have ha3 : a.1 = k := by simpa using ha
        apply beq_eq_false_iff_ne.mpr
        rw [ha3]
        exact fun hh => hne hh.symm
      simp only [List.filter_cons, ha, Bool.not_true, if_false,
        List.find?_cons, ha2]
      exact ih
    · have ha3 : (a.1 == k) = false := by simpa using ha
      simp only [List.filter_cons, ha3, Bool.not_false, if_true,
        List.find?_cons]
      by_cases ha2 : (a.1 == k2) = true
      · simp only [ha2]
      · have ha4 : (a.1 == k2) = false := by simpa using ha2
        simp only [ha4]
        exact ih

/-- Setting a key makes a later lookup of it return the new value. -/
theorem getHeader_setHeader_some_self (hs : List (String × String))
    (k v : String) : getHeader (setHeader hs k (some v)) k = some v := by
  simp only [getHeader, setHeader]
  by_cases hany : hs.any (fun p => p.1 == k) = true
  · rw [if_pos hany]
    induction hs with
    | nil => simp at hany
    | cons a t ih =>
      by_cases ha : (a.1 == k) = true
      · simp only [List.map_cons, ha, if_true, List.find?_cons, beq_self_eq_true]
        rfl
      · have ha3 : (a.1 == k) = false := by simpa using ha
        have hany2 : t.any (fun p => p.1 == k) = true := by
          rcases List.any_eq_true.mp hany with ⟨x, hx, hpx⟩
          rcases List.mem_cons.mp hx with h1 | h2
          · rw [h1] at hpx
            exact absurd hpx (by simp [ha3])
          · exact List.any_eq_true.mpr ⟨x, h2, hpx⟩
        simp only [List.map_cons, List.find?_cons]
        rw [if_neg (by simp [ha3])]
        rw [ha3]
        exact ih hany2
  · rw [if_neg hany]
    have hall : ∀ x ∈ hs, ¬((fun p => p.1 == k) x = true) := by
      intro x hx hpx
      exact hany (List.any_eq_true.mpr ⟨x, hx, hpx⟩)
    rw [List.find?_append, List.find?_eq_none.mpr hall]
    simp [List.find?_cons]

/-- Erasing a list of keys leaves a key outside the list unchanged. -/
theorem getHeader_eraseFold_not_mem (vs : List String)
    (hs : List (String × String)) (k : String) (h : k ∉ vs) :
    getHeader (vs.foldl (fun acc q => setHeader acc q none) hs) k
      = getHeader hs k := by
  induction vs generalizing hs with
  | nil => rfl
  | cons q rest ih =>
    rw [List.foldl_cons]
    have hk : k ≠ q := fun he => h (he ▸ List.mem_cons_self q rest)
    rw [ih _ (fun hm => h (List.mem_cons_of_mem q hm)),
      getHeader_setHeader_none_other _ _ _ hk]

/-- Erasing a list of keys removes every key in the list. -/
theorem getHeader_eraseFold_mem (vs : List String)
    (hs : List (String × String)) (k : String) (h : k ∈ vs) :
    getHeader (vs.foldl (fun acc q => setHeader acc q none) hs) k = none := by
  induction vs generalizing hs with
  | nil => cases h
  | cons q rest ih =>
    rw [List.foldl_cons]
    by_cases hk : k ∈ rest
    · exact ih _ hk
    · have hkq : k = q := by
        rcases List.mem_cons.mp h with h1 | h2
        · exact h1
        · exact absurd h2 hk
      subst hkq
      rw [getHeader_eraseFold_not_mem _ _ _ hk]
      exact getHeader_setHeader_none_self _ _

/-- Claim C7: after the headers stage, the outbound request carries
`Authorization: Bearer v` if and only if the api-key header of the selected
provider was present on the inbound request with value `v`, and no known
provider api-key header remains on the outbound request; when the api-key
header is absent, a 400 response is sent instead. -/
theorem C7_auth_header_rewrite (variants : List String)
    (apiKeyHeader : String) (hs : List (String × String))
    (hauth : "Authorization" ∉ variants) :
    (∀ v, getHeader hs apiKeyHeader = some v →
      ∃ hs2, onHttpRequestHeadersAuth variants apiKeyHeader hs
          = HeadersOutcome.proceed hs2
        ∧ getHeader hs2 "Authorization" = some ("Bearer " ++ v)
        ∧ ∀ p ∈ variants, getHeader hs2 p = none) ∧
    (getHeader hs apiKeyHeader = none →
      onHttpRequestHeadersAuth variants apiKeyHeader hs
        = HeadersOutcome.badRequest
            ("missing " ++ apiKeyHeader ++ " api key")) := by
  constructor
  · intro v hv
    refine ⟨variants.foldl (fun acc q => setHeader acc q none)
        (setHeader hs "Authorization" (some ("Bearer " ++ v))), ?_, ?_, ?_⟩
    · unfold onHttpRequestHeadersAuth modifyAuthHeaders
      rw [hv]
    · rw [getHeader_eraseFold_not_mem _ _ _ hauth]
      exact getHeader_setHeader_some_self _ _ _
    · intro p hp
      exact getHeader_eraseFold_mem _ _ _ hp
  · intro h0
    unfold onHttpRequestHeadersAuth modifyAuthHeaders
    rw [h0]

/-- Witness for C7: two known provider api-key headers, the selected one
present on the inbound request; the outbound request carries the Bearer
header and neither api-key header survives. -/
theorem C7_auth_header_rewrite_witness :
    ("Authorization" ∉ (["x-api-key-openai", "x-api-key-mistral"] : List String))
    ∧ (∃ hs2, onHttpRequestHeadersAuth ["x-api-key-openai", "x-api-key-mistral"]
          "x-api-key-openai"
          [("x-api-key-openai", "sk-123"), ("x-api-key-mistral", "mk-9"),
           ("content-type", "application/json")]
        = HeadersOutcome.proceed hs2
      ∧ getHeader hs2 "Authorization" = some ("Bearer " ++ "sk-123")
      ∧ ∀ p ∈ (["x-api-key-openai", "x-api-key-mistral"] : List String),
          getHeader hs2 p = none) :=
  ⟨by decide,
   (C7_auth_header_rewrite ["x-api-key-openai", "x-api-key-mistral"]
      "x-api-key-openai"
      [("x-api-key-openai", "sk-123"), ("x-api-key-mistral", "mk-9"),
       ("content-type", "application/json")]
      (by decide)).1 "sk-123" rfl⟩

/-- Claim C8: on the tool-success path with a captured rate-limit selector,
a successful tokenization followed by a denied `check_limit` produces a 429
response and one `ratelimited_rq` increment and nothing is forwarded
upstream; a failed tokenization skips the gate and the request is
forwarded. -/
theorem C8_ratelimit_gate (bodyStr : String) (ctx : CallContext)
    (pts : List (String × PromptTarget)) (sel0 : RlHeader)
    (tokenCount tokenCountBad : String → ChatCompletionsRequest → Except Unit Nat)
    (checkLimit : String → RlHeader → Nat → Except String Unit)
    (name : String) (pt : PromptTarget) (um : String)
    (hname : ctx.prompt_target_name = some name)
    (hpt : pts.lookup name = some pt)
    (hum : ctx.user_message = some um)
    (n : Nat) (hn : 0 < n) (e : String)
    (htok : ∀ m b, tokenCount m b = Except.ok n)
    (hchk : ∀ m s k, checkLimit m s k = Except.error e)
    (htokBad : ∀ m b, tokenCountBad m b = Except.error ()) :
    (functionCallResponseHandler [] bodyStr ctx pts (some sel0) tokenCount
        checkLimit = FcOutcome.rateLimited ("Exceeded Ratelimit: " ++ e)
      ∧ (functionCallResponseHandler [] bodyStr ctx pts (some sel0) tokenCount
          checkLimit).ratelimitedIncrements = 1)
    ∧ functionCallResponseHandler [] bodyStr ctx pts (some sel0) tokenCountBad
        checkLimit = FcOutcome.forward (synthesizedRequest ctx pt bodyStr um) := by
  have h1 : functionCallResponseHandler [] bodyStr ctx pts (some sel0)
      tokenCount checkLimit
      = FcOutcome.rateLimited ("Exceeded Ratelimit: " ++ e) := by
    unfold functionCallResponseHandler
    rw [show statusCheckOutcome [] ctx = none from rfl]
    dsimp only []
    rw [hname]
    dsimp only []
    rw [hpt]
    dsimp only []
    rw [hum]
    dsimp only []
    rw [htok]
    dsimp only []
    rw [if_neg (Nat.pos_iff_ne_zero.mp hn)]
    rw [hchk]
  have h2 : functionCallResponseHandler [] bodyStr ctx pts (some sel0)
      tokenCountBad checkLimit
      = FcOutcome.forward (synthesizedRequest ctx pt bodyStr um) := by
    unfold functionCallResponseHandler
    rw [show statusCheckOutcome [] ctx = none from rfl]
    dsimp only []
    rw [hname]
    dsimp only []
    rw [hpt]
    dsimp only []
    rw [hum]
    dsimp only []
    rw [htokBad]
  exact ⟨⟨h1, by rw [h1]; rfl⟩, h2⟩

/-- Witness for C8: a denied limiter yields the 429 outcome with one counter
increment, and a failing tokenizer yields the forward outcome. -/
theorem C8_ratelimit_gate_witness :
    (0 < 5) ∧
    ((functionCallResponseHandler [] "burst" c4Ctx [("weather", sampleSysTarget)]
        (some { key := "x-user", value := "alice" })
        (fun _ _ => Except.ok 5) (fun _ _ _ => Except.error "limit exceeded")
        = FcOutcome.rateLimited ("Exceeded Ratelimit: " ++ "limit exceeded")
      ∧ (functionCallResponseHandler [] "burst" c4Ctx
          [("weather", sampleSysTarget)]
          (some { key := "x-user", value := "alice" })
          (fun _ _ => Except.ok 5)
          (fun _ _ _ => Except.error "limit exceeded")).ratelimitedIncrements = 1)
    ∧ functionCallResponseHandler [] "burst" c4Ctx [("weather", sampleSysTarget)]
        (some { key := "x-user", value := "alice" })
        (fun _ _ => Except.error ()) (fun _ _ _ => Except.error "limit exceeded")
        = FcOutcome.forward (synthesizedRequest c4Ctx sampleSysTarget "burst"
            "what is the weather")) :=
  ⟨by decide,
   C8_ratelimit_gate "burst" c4Ctx [("weather", sampleSysTarget)]
     { key := "x-user", value := "alice" }
     (fun _ _ => Except.ok 5) (fun _ _ => Except.error ())
     (fun _ _ _ => Except.error "limit exceeded")
     "weather" sampleSysTarget "what is the weather" rfl rfl rfl
     5 (by decide) "limit exceeded"
     (fun _ _ => rfl) (fun _ _ _ => rfl) (fun _ _ => rfl)⟩

/-- The tool diagnostic contains the cluster name. -/
theorem toolErrorMsg_contains_cluster (c p st : String) :
    containsFragment (toolErrorMsg c p st) c := by
  refine ⟨("Error in function call response: cluster: " : String).data,
    (", path: " ++ p ++ ", status code: " ++ st : String).data, ?_⟩
  simp [toolErrorMsg, String.data_append, List.append_assoc]

/-- The tool diagnostic contains the path. -/
theorem toolErrorMsg_contains_path (c p st : String) :
    containsFragment (toolErrorMsg c p st) p := by
  refine ⟨("Error in function call response: cluster: " ++ c
      ++ ", path: " : String).data,
    (", status code: " ++ st : String).data, ?_⟩
  simp [toolErrorMsg, String.data_append, List.append_assoc]

/-- Claim C10: on a tool-endpoint reply the filter responds 400 with a
diagnostic containing the cluster name and path if and only if the reply
carries a `:status` pseudo-header whose value differs from the exact string
`"200"`; a reply with no `:status` header proceeds to the message
synthesis. -/
theorem C10_tool_status_gate (headers : List (String × String))
    (bodyStr : String) (ctx : CallContext)
    (pts : List (String × PromptTarget))
    (tokenCount : String → ChatCompletionsRequest → Except Unit Nat)
    (checkLimit : String → RlHeader → Nat → Except String Unit)
    (cluster path : String)
    (hcl : ctx.up_stream_cluster = some cluster)
    (hpath : ctx.up_stream_cluster_path = some path)
    (name : String) (pt : PromptTarget) (um : String)
    (hname : ctx.prompt_target_name = some name)
    (hpt : pts.lookup name = some pt)
    (hum : ctx.user_message = some um) :
    (∀ kv, headers.find? (fun p => p.1 == ":status") = some kv →
      kv.2 ≠ "200" →
      functionCallResponseHandler headers bodyStr ctx pts none tokenCount
          checkLimit = FcOutcome.httpError 400 (toolErrorMsg cluster path kv.2)
        ∧ containsFragment (toolErrorMsg cluster path kv.2) cluster
        ∧ containsFragment (toolErrorMsg cluster path kv.2) path)
    ∧ ((∃ msg, functionCallResponseHandler headers bodyStr ctx pts none
          tokenCount checkLimit = FcOutcome.httpError 400 msg) →
        ∃ kv, headers.find? (fun p => p.1 == ":status") = some kv
          ∧ kv.2 ≠ "200")
    ∧ (headers.find? (fun p => p.1 == ":status") = none →
        functionCallResponseHandler headers bodyStr ctx pts none tokenCount
          checkLimit
          = FcOutcome.forward (synthesizedRequest ctx pt bodyStr um)) := by
  have hsucc : statusCheckOutcome headers ctx = none →
      functionCallResponseHandler headers bodyStr ctx pts none tokenCount
        checkLimit = FcOutcome.forward (synthesizedRequest ctx pt bodyStr um) := by
    intro hsc
    unfold functionCallResponseHandler
    rw [hsc]
    dsimp only []
    rw [hname]
    dsimp only []
    rw [hpt]
    dsimp only []
    rw [hum]
  have hscNone : headers.find? (fun p => p.1 == ":status") = none →
      statusCheckOutcome headers ctx = none := by
    intro h
    unfold statusCheckOutcome
    rw [h]
  have hsc200 : ∀ kv, headers.find? (fun p => p.1 == ":status") = some kv →
      kv.2 = "200" → statusCheckOutcome headers ctx = none := by
    intro kv h h200
    unfold statusCheckOutcome
    rw [h]
    dsimp only []
    rw [if_neg (not_not_intro h200)]
  refine ⟨?_, ?_, ?_⟩
  · intro kv hkv hne
    have hh : functionCallResponseHandler headers bodyStr ctx pts none
        tokenCount checkLimit
        = FcOutcome.httpError 400 (toolErrorMsg cluster path kv.2) := by
      unfold functionCallResponseHandler statusCheckOutcome
      rw [hkv]
      dsimp only []
      rw [if_pos hne, hcl, hpath]
    exact ⟨hh, toolErrorMsg_contains_cluster cluster path kv.2,
      toolErrorMsg_contains_path cluster path kv.2⟩
  · intro herr
    obtain ⟨msg, hmsg⟩ := herr
    cases hfind : headers.find? (fun p => p.1 == ":status") with
    | none =>
      rw [hsucc (hscNone hfind)] at hmsg
      exact FcOutcome.noConfusion hmsg
    | some kv =>
      by_cases h200 : kv.2 = "200"
      · rw [hsucc (hsc200 kv hfind h200)] at hmsg
        exact FcOutcome.noConfusion hmsg
      · exact ⟨kv, rfl, h200⟩
  · intro hnone
    exact hsucc (hscNone hnone)

/-- Witness for C10: a 503 tool reply yields the 400 diagnostic naming the
cluster and path, and a reply with no status header proceeds to synthesis
and forwards. -/
theorem C10_tool_status_gate_witness :
    (c4Ctx.up_stream_cluster = some "weathercluster"
      ∧ c4Ctx.up_stream_cluster_path = some "/wx")
    ∧ (functionCallResponseHandler [(":status", "503")] "oops" c4Ctx
        [("weather", sampleSysTarget)] none (fun _ _ => Except.ok 5)
        (fun _ _ _ => Except.ok ())
        = FcOutcome.httpError 400 (toolErrorMsg "weathercluster" "/wx" "503")
      ∧ containsFragment (toolErrorMsg "weathercluster" "/wx" "503")
          "weathercluster"
      ∧ containsFragment (toolErrorMsg "weathercluster" "/wx" "503") "/wx")
    ∧ functionCallResponseHandler [] "sunny" c4Ctx
        [("weather", sampleSysTarget)] none (fun _ _ => Except.ok 5)
        (fun _ _ _ => Except.ok ())
        = FcOutcome.forward (synthesizedRequest c4Ctx sampleSysTarget "sunny"
            "what is the weather") :=
  ⟨⟨rfl, rfl⟩,
   (C10_tool_status_gate [(":status", "503")] "oops" c4Ctx
      [("weather", sampleSysTarget)] (fun _ _ => Except.ok 5)
      (fun _ _ _ => Except.ok ()) "weathercluster" "/wx" rfl rfl
      "weather" sampleSysTarget "what is the weather" rfl rfl rfl).1
      (":status", "503") rfl (by decide),
   (C10_tool_status_gate [] "sunny" c4Ctx
      [("weather", sampleSysTarget)] (fun _ _ => Except.ok 5)
      (fun _ _ _ => Except.ok ()) "weathercluster" "/wx" rfl rfl
      "weather" sampleSysTarget "what is the weather" rfl rfl rfl).2.2 rfl⟩

/-- Claim C9, evaluated on the source behaviour: `chat_completions_request`
is initialized to `false` by `StreamContext::new` and never set by the
request-body stage, so `on_http_response_body` takes the
non-chat-completions early return and the response-token counter never
moves; were the flag set, the same handler would add
`tokenize(model, delta.content)` per chunk (4, then 4 + 2 for the two
sample chunks). -/
theorem C9_streaming_accounting_dead_flag :
    (onHttpRequestBody streamContextNew true 1 (some c5Req) "m2" none).st
      = { streaming_response := true, response_tokens := 0
          chat_completions_request := false }
    ∧ onHttpResponseBody
        { streaming_response := true, response_tokens := 0
          chat_completions_request := false }
        false "data: CHUNK" c9Parse (fun _ => none) c9TokenCount
      = some ({ streaming_response := true, response_tokens := 0
                chat_completions_request := false }, Action.Continue)
    ∧ onHttpResponseBody
        { streaming_response := true, response_tokens := 0
          chat_completions_request := true }
        false "data: CHUNK" c9Parse (fun _ => none) c9TokenCount
      = some ({ streaming_response := true, response_tokens := 4
                chat_completions_request := true }, Action.Continue)
    ∧ onHttpResponseBody
        { streaming_response := true, response_tokens := 4
          chat_completions_request := true }
        false "data: CHUNK2" c9Parse (fun _ => none) c9TokenCount
      = some ({ streaming_response := true, response_tokens := 4 + 2
                chat_completions_request := true }, Action.Continue) :=
  ⟨rfl, rfl, rfl, rfl⟩

end Curve
